import Mathlib

/-!
Rational arithmetic is restored to its default transparency below so that the
concrete scenario theorems of this development evaluate by `decide`; the
upstream library marks these operations irreducible purely as an elaboration
performance hint.
-/
attribute [local semireducible] Rat.sub Rat.add Rat.mul Rat.inv

/-!
Shallow embedding of the CTD hysteresis pairing-and-classification engine of
`scripts/ctd_hysteresis_test.py` in the rugliderqc repository, together with
the flag-discovery filter of the downstream consumer
`scripts/summarize_qartod_flags.py`.

Modelling conventions:
* a sample value is `Option ℚ`; `none` stands for NaN (undefined),
* a channel (numpy array / xarray variable) is a `List (Option ℚ)`,
* a dataset is an association list of named channels plus the attributes the
  engine touches (`ancillary_variables` per variable, `history`),
* external library behaviour that the source delegates wholesale
  (pandas `interpolate` on the pressure column, the shapely
  `Polygon`/`polygonize`/`MultiPolygon.area` pipeline) is taken as an oracle
  parameter `GeomOracle`; no claim settled here depends on its value,
* wall-clock timestamps are a `String` parameter,
* Python control flow, including the caught `OSError`/`KeyError`/`NameError`
  paths of `main`, is made explicit with `Except`; an uncaught exception is an
  `Except.error` aborting the whole scan.
-/

/-- Channel of per-sample values; `none` models NaN. -/
abbrev Chan := List (Option ℚ)

/-- Prefix check on character lists, helper for substring containment. -/
def leadMatch : List Char → List Char → Bool
  | _, [] => true
  | [], _ :: _ => false
  | c :: cs, d :: es => c = d && leadMatch cs es

/-- Substring occurrence on character lists. -/
def subMatch : List Char → List Char → Bool
  | [], sub => sub.isEmpty
  | c :: cs, sub => leadMatch (c :: cs) sub || subMatch cs sub

/-- Python `sub in s` substring containment on strings. -/
def strContains (s sub : String) : Bool :=
  subMatch s.data sub.data

/-- Maximum of a rational list, `none` on empty (models `np.nanmax` over the
valid values). -/
def listMax? : List ℚ → Option ℚ
  | [] => none
  | x :: xs =>
    some (match listMax? xs with
          | none => x
          | some m => max x m)

/-- Minimum of a rational list, `none` on empty (models `np.nanmin` over the
valid values). -/
def listMin? : List ℚ → Option ℚ
  | [] => none
  | x :: xs =>
    some (match listMin? xs with
          | none => x
          | some m => min x m)

/-- Values of a channel that are not NaN, in order. -/
def validVals (c : Chan) : List ℚ :=
  c.filterMap id

/-- Number of non-NaN samples, `np.sum(~np.isnan(c))`. -/
def countDefined (c : Chan) : ℕ :=
  (validVals c).length

/-- First non-NaN sample, `c.values[idx][0]` for `idx` the non-NaN index set. -/
def firstValid (c : Chan) : Option ℚ :=
  (validVals c).head?

/-- Last non-NaN sample, `c.values[idx][-1]`. -/
def lastValid (c : Chan) : Option ℚ :=
  (validVals c).getLast?

/-- Thresholds record of the per-variable QC configuration
(`config_dict[f"{testvar}_hysteresis_test"]`). -/
structure Thresholds where
  test_threshold : ℚ
  suspect_threshold : ℚ
  fail_threshold : ℚ
deriving DecidableEq

/-- Dataset: the channels and attributes of one profile file that the engine
reads or writes. `time` is the shared time coordinate (modelled in minutes,
so the 5-minute pairing gap of the source is the literal `5`). `dataVars`
holds every named data variable: tested variables, derived variables,
pre-existing QARTOD flag channels and the flag channels committed by this
engine. `ancVars` is the `ancillary_variables` attribute per variable name. -/
structure Dataset where
  time : List ℚ
  dataVars : List (String × Chan)
  ancVars : List (String × String)
  history : Option String
deriving DecidableEq

/-- Lookup of `ds[name]`, `none` models a `KeyError`. -/
def dvLookup (ds : Dataset) (name : String) : Option Chan :=
  (ds.dataVars.find? (fun p => p.1 = name)).map Prod.snd

/-- Assignment `ds[name] = chan` with dict semantics: replace the entry if the
key exists, else append it. -/
def dvSet (ds : Dataset) (name : String) (c : Chan) : Dataset :=
  if (ds.dataVars.find? (fun p => p.1 = name)).isSome then
    { ds with dataVars := ds.dataVars.map (fun p => if p.1 = name then (name, c) else p) }
  else
    { ds with dataVars := ds.dataVars ++ [(name, c)] }

/-- Lookup of the `ancillary_variables` attribute of variable `name`. -/
def ancLookup (ds : Dataset) (name : String) : Option String :=
  (ds.ancVars.find? (fun p => p.1 = name)).map Prod.snd

/-- Assignment of the `ancillary_variables` attribute of variable `name`. -/
def ancSet (ds : Dataset) (name : String) (v : String) : Dataset :=
  if (ds.ancVars.find? (fun p => p.1 = name)).isSome then
    { ds with ancVars := ds.ancVars.map (fun p => if p.1 = name then (name, v) else p) }
  else
    { ds with ancVars := ds.ancVars ++ [(name, v)] }

/-- Source `append_ancillary_variables` (ctd_hysteresis_test.py lines 27-38):
create the attribute when absent, else blank-separated string concatenation
(`" ".join((old, qc_variable_name))`), with no presence check. -/
def append_ancillary_variables (ds : Dataset) (varName qcVariableName : String) : Dataset :=
  match ancLookup ds varName with
  | none => ancSet ds varName qcVariableName
  | some s => ancSet ds varName (s ++ " " ++ qcVariableName)

/-- One masking pass of `apply_qartod_qc`: set `datacopy[qv_idx] = nan` at the
indices where the prior flag channel holds 2, 3 or 4. -/
def maskFlagged (data qv : Chan) : Chan :=
  (List.range data.length).map (fun i =>
    match qv.getD i none with
    | some x => if x = 2 ∨ x = 3 ∨ x = 4 then none else data.getD i none
    | none => data.getD i none)

/-- Source `apply_qartod_qc` (lines 41-54): copy `ds[varname]` and NaN out
every sample flagged NOT_EVALUATED(2)/SUSPECT(3)/FAIL(4) by any channel whose
name contains `f"{varname}_qartod"`. -/
def apply_qartod_qc (ds : Dataset) (varname : String) : Chan :=
  (ds.dataVars.filter (fun p => strContains p.1 (varname ++ "_qartod"))).foldl
    (fun acc p => maskFlagged acc p.2) ((dvLookup ds varname).getD [])

/-- Indices of the non-NaN samples of the raw variable, the `non_nan_i`
returned by source `initialize_flags` (lines 57-69). -/
def nonNanIdx (raw : Chan) : List ℕ :=
  (List.range raw.length).filter (fun i => (raw.getD i none).isSome)

/-- Flag array built by source `initialize_flags`: start at
NOT_EVALUATED(2) everywhere, overwrite with MISSING(9) where the raw sample is
NaN. -/
def initialize_flags (raw : Chan) : List ℚ :=
  raw.map (fun v => if v.isSome then 2 else 9)

/-- Vectorized assignment `flags[idx] = x` of numpy fancy indexing. -/
def setIdx (flags : List ℚ) (idx : List ℕ) (x : ℚ) : List ℚ :=
  (List.range flags.length).map (fun i => if i ∈ idx then x else flags.getD i 0)

/-- Condition of lines 316-320 and 390-393: masked pressure entirely NaN
(`pressure_diff` is NaN) or spanning fewer than 5 dbar. -/
def pressureDegenerate (p : Chan) : Bool :=
  match listMax? (validVals p), listMin? (validVals p) with
  | some mx, some mn => decide (mx - mn < 5)
  | _, _ => true

/-- Direction test of the current profile (lines 326-330): up exactly when the
first valid masked pressure is strictly greater than the last. -/
def profileIsUpFirst (p : Chan) : Bool :=
  match firstValid p, lastValid p with
  | some a, some b => decide (a > b)
  | _, _ => false

/-- Direction test of the lookahead profile (lines 401-405): down exactly when
the first valid masked pressure is strictly less than the last. -/
def secondIsDown (p : Chan) : Bool :=
  match firstValid p, lastValid p with
  | some a, some b => decide (a < b)
  | _, _ => false

/-- Pairing gap test of line 416: start of the lookahead minus end of the
current is under 5 minutes. -/
def timeGapSmall (ds ds2 : Dataset) : Bool :=
  match ds2.time.head?, ds.time.getLast? with
  | some t2, some t1 => decide (t2 - t1 < 5)
  | _, _ => false

/-- Flag channel name committed per tested variable (line 295),
`f"{testvar}_hysteresis_test"`. -/
def qcVarnameOf (testvar : String) : String :=
  testvar ++ "_hysteresis_test"

/-- Flag code list of `set_hysteresis_attrs` (line 105). -/
def hysteresisFlagValues : List ℤ :=
  [1, 2, 3, 4, 9]

/-- Discovery filter of the downstream consumer
(summarize_qartod_flags.py lines 148-152): channel names containing
`"_qartod_"` and not containing `"_qartod_climatology"`. -/
def qartodVarFilter (x : String) : Bool :=
  strContains x "_qartod_" && ! strContains x "_qartod_climatology"

/-- Tested variables of the engine (line 243). -/
def testVarnames : List String :=
  ["conductivity", "temperature"]

/-- Classification of lines 471-515: when the data range exceeds
`test_threshold` compare the normalized area against the range scaled by the
fail and suspect thresholds, otherwise GOOD(1) without running the geometry. -/
def classify (th : Thresholds) (dataRange area : ℚ) : ℚ :=
  if dataRange > th.test_threshold then
    if area > dataRange * th.fail_threshold then 4
    else if area > dataRange * th.suspect_threshold then 3
    else 1
  else 1

/-- Severity order GOOD(1) < SUSPECT(3) < FAIL(4) on flag codes. -/
def sev (q : ℚ) : ℕ :=
  if q = 4 then 2 else if q = 3 then 1 else 0

/-- Data range `np.nanmax − np.nanmin` of the tested-variable column of the
combined dropna dataframe (lines 467-469). -/
def dataRangeOf (pts : List (ℚ × ℚ)) : ℚ :=
  (listMax? (pts.map Prod.fst)).getD 0 - (listMin? (pts.map Prod.fst)).getD 0

/-- Pressure range over the combined dropna dataframe (lines 464-466). -/
def pressureRangeOf (pts : List (ℚ × ℚ)) : ℚ :=
  (listMax? (pts.map Prod.snd)).getD 0 - (listMin? (pts.map Prod.snd)).getD 0

/-- Row filter of `df.dropna(subset=["pressure", testvar])` after the merge:
keep the (value, pressure) pairs where both entries are defined. -/
def dropNanRows (rows : List (Option ℚ × Option ℚ)) : List (ℚ × ℚ) :=
  rows.filterMap (fun r =>
    match r with
    | (some v, some p) => some (v, p)
    | _ => none)

/-- Oracle for the external library calls the source delegates: pandas
`interpolate(method="linear", limit_direction="both", limit=2)` on a pressure
column, and the shapely ring area pipeline
(`Polygon`/`intersection`/`polygonize`/`MultiPolygon(...).area`). -/
structure GeomOracle where
  interpPressure : Chan → Chan
  ringArea : List (ℚ × ℚ) → ℚ

/-- Per-variable summary counters of lines 246-251. -/
structure Counters where
  failed_profiles : ℕ
  suspect_profiles : ℕ
  not_evaluated_profiles : ℕ
deriving DecidableEq

/-- Summary dictionary keyed by tested variable. -/
abbrev Summary := List (String × Counters)

/-- Initial summary of lines 246-251: all counters at zero for every tested
variable. -/
def initSummary : Summary :=
  testVarnames.map (fun tv => (tv, ⟨0, 0, 0⟩))

/-- Counter update `summary[tv][...] += delta` for the three counters. -/
def bumpSummary (s : Summary) (tv : String) (dNE dS dF : ℕ) : Summary :=
  s.map (fun p =>
    if p.1 = tv then
      (p.1, { failed_profiles := p.2.failed_profiles + dF
              suspect_profiles := p.2.suspect_profiles + dS
              not_evaluated_profiles := p.2.not_evaluated_profiles + dNE })
    else p)

/-- Source `add_da` (lines 72-92): store the flag array as the data variable
named `qc_variable_name` on the dataset. The fixed attribute record of
`set_hysteresis_attrs` is not carried beyond `hysteresisFlagValues`. -/
def add_da (ds : Dataset) (flagArray : List ℚ) (qcVariableName : String) : Dataset :=
  dvSet ds qcVariableName (flagArray.map some)

/-- Outcome of the joint evaluation of a structurally valid pair
(lines 420-528): the two flag arrays, the joint classification when one was
produced, and the summary deltas. -/
structure PairOutcome where
  flags : List ℚ
  flags2 : List ℚ
  classified : Option ℚ
  notEvalDelta : ℕ
  suspectDelta : ℕ
  failDelta : ℕ
deriving DecidableEq

/-- Joint evaluation of a `down`/`up` pair with a small time gap
(lines 420-528): mask the tested variable on both profiles; when either side
has no surviving sample leave both flag arrays at their initial values with a
+2 not-evaluated delta; otherwise build the merged interpolated point set,
drop NaN rows, take the ranges, classify, and write the single classification
over the non-NaN indices of both raw variables. -/
def pairEvaluate (g : GeomOracle) (th : Thresholds) (ds ds2 : Dataset)
    (testvar : String) : PairOutcome :=
  let raw := (dvLookup ds testvar).getD []
  let raw2 := (dvLookup ds2 testvar).getD []
  let flags := initialize_flags raw
  let flags2 := initialize_flags raw2
  let dataCopy := apply_qartod_qc ds testvar
  let dataCopy2 := apply_qartod_qc ds2 testvar
  if countDefined dataCopy > 0 ∧ countDefined dataCopy2 > 0 then
    let pressureCopy := apply_qartod_qc ds "pressure"
    let pressureCopy2 := apply_qartod_qc ds2 "pressure"
    let rows := List.zip dataCopy (g.interpPressure pressureCopy)
    let rows2 := List.zip dataCopy2 (g.interpPressure pressureCopy2)
    let points := dropNanRows (rows ++ rows2)
    let ring := points ++ points.take 1
    let area := g.ringArea ring / pressureRangeOf points
    let flag := classify th (dataRangeOf points) area
    { flags := setIdx flags (nonNanIdx raw) flag
      flags2 := setIdx flags2 (nonNanIdx raw2) flag
      classified := some flag
      notEvalDelta := 0
      suspectDelta := if flag = 3 then 2 else 0
      failDelta := if flag = 4 then 2 else 0 }
  else
    { flags := flags
      flags2 := flags2
      classified := none
      notEvalDelta := 2
      suspectDelta := 0
      failDelta := 0 }

/-- Uncaught Python exception aborting the scan. The only uncaught kind the
claims exercise is the `NameError` raised by `ds2[testvar]` when the lookahead
file failed to open (the handler at line 370 catches only `KeyError`). -/
inductive PyErr where
  | nameError
deriving DecidableEq

/-- State threaded through the per-variable loop of one file iteration:
the current dataset, the Python binding of `ds2` (`none` = unbound), the
`f2skip` counter, the run status, and the summary. -/
structure TVState where
  ds : Dataset
  ds2 : Option Dataset
  f2skip : ℕ
  status : ℕ
  summary : Summary
deriving DecidableEq

/-- Ancillary epilogue of lines 537-556, reached only by falling through the
per-variable body: append the flag channel name to the `ancillary_variables`
attribute of the tested variable, `salinity` and `density` on the current
dataset, and on the lookahead dataset only when it is bound and already holds
the flag channel. -/
def epilogueAnc (qcName testvar : String) (st : TVState) : TVState :=
  let ds1 := append_ancillary_variables st.ds testvar qcName
  let dsF := append_ancillary_variables
    (append_ancillary_variables ds1 "salinity" qcName) "density" qcName
  match st.ds2 with
  | some d2 =>
    if (dvLookup d2 qcName).isSome then
      { st with
        ds := dsF
        ds2 := some (append_ancillary_variables
          (append_ancillary_variables
            (append_ancillary_variables d2 testvar qcName) "salinity" qcName)
          "density" qcName) }
    else { st with ds := dsF }
  | none => { st with ds := dsF }

/-- Body of the per-tested-variable loop of `main` (lines 282-556) for one
tested variable. `nextFile` is `ncfiles[i+1]`: `none` models the
`IndexError` of a missing next file, `some none` a file whose open raises
`OSError`, `some (some d)` a readable file. -/
def processTestvar (g : GeomOracle) (th : Thresholds)
    (nextFile : Option (Option Dataset)) (testvar : String)
    (st : TVState) : Except PyErr TVState :=
  match dvLookup st.ds testvar with
  | none => .ok { st with status := 1 }
  | some raw =>
    let qcName := qcVarnameOf testvar
    let flags := initialize_flags raw
    if (nonNanIdx raw).isEmpty then .ok { st with status := 1 }
    else
      let pressureCopy := apply_qartod_qc st.ds "pressure"
      if pressureDegenerate pressureCopy then
        .ok { st with
          ds := add_da st.ds flags qcName
          summary := bumpSummary st.summary testvar 1 0 0 }
      else if profileIsUpFirst pressureCopy then
        .ok (epilogueAnc qcName testvar
          { st with
            ds := add_da st.ds flags qcName
            summary := bumpSummary st.summary testvar 1 0 0 })
      else
        match nextFile with
        | none =>
          let dsA := add_da st.ds flags qcName
          let dsB := append_ancillary_variables dsA testvar qcName
          let dsC := append_ancillary_variables
            (append_ancillary_variables dsB "salinity" qcName) "density" qcName
          .ok { st with ds := dsC, summary := bumpSummary st.summary testvar 1 0 0 }
        | some f2 =>
          let opened : Option Dataset × ℕ × ℕ :=
            match st.ds2 with
            | some d => (some d, st.status, st.f2skip)
            | none =>
              match f2 with
              | none => (none, 1, st.f2skip + 1)
              | some d => (some d, st.status, st.f2skip)
          match opened with
          | (none, _, _) => .error .nameError
          | (some d2, st1, f1) =>
            match dvLookup d2 testvar with
            | none =>
              .ok { st with
                ds := add_da st.ds flags qcName
                ds2 := some d2
                status := 1
                f2skip := f1
                summary := bumpSummary st.summary testvar 1 0 0 }
            | some raw2 =>
              let flags2 := initialize_flags raw2
              let pressureCopy2 := apply_qartod_qc d2 "pressure"
              if pressureDegenerate pressureCopy2 then
                .ok { st with
                  ds := add_da st.ds flags qcName
                  ds2 := some (add_da d2 flags2 qcName)
                  status := st1
                  f2skip := f1 + 1
                  summary := bumpSummary st.summary testvar 2 0 0 }
              else if secondIsDown pressureCopy2 then
                .ok (epilogueAnc qcName testvar
                  { st with
                    ds := add_da st.ds flags qcName
                    ds2 := some d2
                    status := st1
                    f2skip := f1
                    summary := bumpSummary st.summary testvar 1 0 0 })
              else if timeGapSmall st.ds d2 then
                let out := pairEvaluate g th st.ds d2 testvar
                .ok (epilogueAnc qcName testvar
                  { st with
                    ds := add_da st.ds out.flags qcName
                    ds2 := some (add_da d2 out.flags2 qcName)
                    status := st1
                    f2skip := f1 + 1
                    summary := bumpSummary st.summary testvar
                      out.notEvalDelta out.suspectDelta out.failDelta })
              else
                .ok (epilogueAnc qcName testvar
                  { st with
                    ds := add_da st.ds flags qcName
                    ds2 := some (add_da d2 flags2 qcName)
                    status := st1
                    f2skip := f1 + 1
                    summary := bumpSummary st.summary testvar 2 0 0 })

/-- Run of the per-variable loop over the list of tested variables,
propagating an uncaught exception. -/
def runTestvars (g : GeomOracle) (cfg : String → Thresholds)
    (nextFile : Option (Option Dataset)) :
    List String → TVState → Except PyErr TVState
  | [], st => .ok st
  | tv :: rest, st =>
    match processTestvar g (cfg (qcVarnameOf tv)) nextFile tv st with
    | .error e => .error e
    | .ok st2 => runTestvars g cfg nextFile rest st2

/-- Run-level state of the outer file loop (lines 253-279 and 558-579):
aggregate status, accumulated skip, the `f2skip` binding left by the previous
iteration (`none` = still unbound, the `UnboundLocalError` catch), the
summary, and the datasets saved so far. -/
structure RunState where
  status : ℕ
  skip : ℕ
  f2skipLast : Option ℕ
  summary : Summary
  saved : List Dataset
deriving DecidableEq

/-- History line appended per save, `f"{now}: {os.path.basename(__file__)}"`. -/
def historyLine (now : String) : String :=
  now ++ ": ctd_hysteresis_test.py"

/-- History attribute update of lines 560-565 and 570-575. -/
def addHistory (now : String) (ds : Dataset) : Dataset :=
  match ds.history with
  | none => { ds with history := some (historyLine now) }
  | some h => { ds with history := some (h ++ " " ++ historyLine now) }

/-- One iteration of the outer file loop at enumerate index `j`: replay the
skip bookkeeping of lines 254-267, open `ncfiles[i]` (`none` models an
unreadable file: `OSError` caught, status set, continue), run both tested
variables, then save the current dataset and the lookahead dataset when it is
bound (lines 558-579). -/
def runStep (g : GeomOracle) (cfg : String → Thresholds) (now : String)
    (files : List (Option Dataset)) (st : RunState) (j : ℕ) :
    Except PyErr RunState :=
  let skip2 :=
    match st.f2skipLast with
    | none => st.skip
    | some k => if k > 0 then st.skip + 1 else st.skip
  let i := j + skip2
  if i < files.length then
    match files.getD i none with
    | none => .ok { st with skip := skip2, status := 1 }
    | some ds0 =>
      let tv0 : TVState :=
        { ds := ds0, ds2 := none, f2skip := 0, status := st.status, summary := st.summary }
      match runTestvars g cfg files[i + 1]? testVarnames tv0 with
      | .error e => .error e
      | .ok tvF =>
        let saved2 := st.saved ++ [addHistory now tvF.ds]
        let saved3 :=
          match tvF.ds2 with
          | some d2 => saved2 ++ [addHistory now d2]
          | none => saved2
        .ok { status := tvF.status
              skip := skip2
              f2skipLast := some tvF.f2skip
              summary := tvF.summary
              saved := saved3 }
  else .ok { st with skip := skip2 }

/-- Whole scan over the file set of one deployment (the loop of line 255),
starting from a clean status and zeroed summary; an uncaught exception aborts
the fold. -/
def runScan (g : GeomOracle) (cfg : String → Thresholds) (now : String)
    (files : List (Option Dataset)) : Except PyErr RunState :=
  (List.range files.length).foldlM (runStep g cfg now files)
    { status := 0, skip := 0, f2skipLast := none, summary := initSummary, saved := [] }

/-- Projection: the committed flag channel named `name` on the current
dataset of a per-variable step result, `none` when the step aborted. -/
def resultMainFlags (r : Except PyErr TVState) (name : String) : Option Chan :=
  match r with
  | .ok st => dvLookup st.ds name
  | .error _ => none

/-- Projection: the committed flag channel named `name` on the bound
lookahead dataset of a per-variable step result. -/
def resultLookFlags (r : Except PyErr TVState) (name : String) : Option Chan :=
  match r with
  | .ok st => st.ds2.bind (fun d => dvLookup d name)
  | .error _ => none

/-- Projection: the `ancillary_variables` attribute of variable `v` on the
current dataset of a per-variable step result. -/
def resultAncAttr (r : Except PyErr TVState) (v : String) : Option (Option String) :=
  match r with
  | .ok st => some (ancLookup st.ds v)
  | .error _ => none

/-- Projection: the uncaught exception a whole scan aborted with, `none` when
the scan ran to completion. -/
def runOutcome (r : Except PyErr RunState) : Option PyErr :=
  match r with
  | .error e => some e
  | .ok _ => none

/-- Trivial oracle instance used by the concrete scenarios: identity
interpolation and zero ring area. No settled claim depends on its value. -/
def g0 : GeomOracle :=
  { interpPressure := id, ringArea := fun _ => 0 }

/-- Concrete thresholds with a large `test_threshold`, so small data ranges
classify GOOD without consulting the geometry. -/
def thBig : Thresholds :=
  { test_threshold := 100, suspect_threshold := 1 / 10, fail_threshold := 3 / 10 }

/-- Scenario profile whose masked pressure has equal first and last valid
samples (10, 20, 10) and a 10 dbar span. -/
def dsEq : Dataset :=
  { time := [0, 1, 2]
    dataVars := [("pressure", [some 10, some 20, some 10]),
                 ("conductivity", [some 1, some 1, some 1]),
                 ("temperature", [some 1, some 1, some 1]),
                 ("salinity", [some 1, some 1, some 1]),
                 ("density", [some 1, some 1, some 1])]
    ancVars := []
    history := none }

/-- Scenario up profile (pressure descending 20 → 10) starting at minute 2. -/
def dsUp : Dataset :=
  { time := [2, 3]
    dataVars := [("pressure", [some 20, some 10]),
                 ("conductivity", [some 1, some 1]),
                 ("temperature", [some 1, some 1]),
                 ("salinity", [some 1, some 1]),
                 ("density", [some 1, some 1])]
    ancVars := []
    history := none }

/-- Scenario down profile (pressure ascending 0 → 10). -/
def dsDown : Dataset :=
  { time := [0, 1]
    dataVars := [("pressure", [some 0, some 10]),
                 ("conductivity", [some 1, some 2]),
                 ("temperature", [some 1, some 2]),
                 ("salinity", [some 1, some 2]),
                 ("density", [some 1, some 2])]
    ancVars := []
    history := none }

/-- Scenario profile with a degenerate pressure span (1 dbar, under the
5 dbar floor). -/
def dsDeg : Dataset :=
  { time := [0, 1]
    dataVars := [("pressure", [some 1, some 2]),
                 ("conductivity", [some 5, some 6]),
                 ("salinity", [some 1, some 2]),
                 ("density", [some 1, some 2])]
    ancVars := []
    history := none }

/-- Scenario up profile used as a current file (pressure descending
20 → 10). -/
def dsUpCur : Dataset :=
  { time := [0, 1]
    dataVars := [("pressure", [some 20, some 10]),
                 ("conductivity", [some 1, some 2]),
                 ("salinity", [some 1, some 2]),
                 ("density", [some 1, some 2])]
    ancVars := []
    history := none }

/-- Scenario down profile whose first conductivity sample is NaN. -/
def dsMiss : Dataset :=
  { time := [0, 1]
    dataVars := [("pressure", [some 0, some 10]),
                 ("conductivity", [none, some 5]),
                 ("salinity", [some 1, some 2]),
                 ("density", [some 1, some 2])]
    ancVars := []
    history := none }

/-- Scenario profile with a degenerate pressure span and an entirely NaN
conductivity channel. -/
def dsDegNaN : Dataset :=
  { time := [0, 1]
    dataVars := [("pressure", [some 1, some 2]),
                 ("conductivity", [none, none]),
                 ("salinity", [some 1, some 2]),
                 ("density", [some 1, some 2])]
    ancVars := []
    history := none }

/-- Per-variable state at the start of a file iteration for `dsDegNaN`. -/
def stDegNaN : TVState :=
  { ds := dsDegNaN, ds2 := none, f2skip := 0, status := 0, summary := initSummary }

/-- Per-variable state at the start of a file iteration for `dsEq`. -/
def stEq : TVState :=
  { ds := dsEq, ds2 := none, f2skip := 0, status := 0, summary := initSummary }

/-- Per-variable state at the start of a file iteration for `dsDeg`. -/
def stDeg : TVState :=
  { ds := dsDeg, ds2 := none, f2skip := 0, status := 0, summary := initSummary }

/-- Per-variable state at the start of a file iteration for `dsUpCur`. -/
def stUpCur : TVState :=
  { ds := dsUpCur, ds2 := none, f2skip := 0, status := 0, summary := initSummary }

/-- Per-variable state at the start of a file iteration for `dsDown`. -/
def stDown : TVState :=
  { ds := dsDown, ds2 := none, f2skip := 0, status := 0, summary := initSummary }

theorem getD_map_range {α : Type} (n : ℕ) (f : ℕ → α) (d : α) (i : ℕ) :
    ((List.range n).map f).getD i d = if i < n then f i else d := by
  rcases Nat.lt_or_ge i n with h | h
  · rw [List.getD_eq_getElem?_getD, List.getElem?_map, List.getElem?_range h]
    simp [h]
  · have hlen : ((List.range n).map f).length ≤ i := by simpa using h
    rw [List.getD_eq_default _ _ hlen]
    simp [Nat.not_lt.2 h]

theorem chan_getD_isSome_lt (c : Chan) (i : ℕ)
    (h : (c.getD i none).isSome = true) : i < c.length := by
  by_contra hn
  rw [List.getD_eq_default _ _ (Nat.le_of_not_lt hn)] at h
  simp at h

theorem setIdx_getD (fs : List ℚ) (idx : List ℕ) (x : ℚ) (i : ℕ)
    (h : i < fs.length) :
    (setIdx fs idx x).getD i 0 = if i ∈ idx then x else fs.getD i 0 := by
  unfold setIdx
  rw [getD_map_range]
  simp [h]

theorem mem_nonNanIdx (raw : Chan) (i : ℕ) :
    i ∈ nonNanIdx raw ↔ i < raw.length ∧ (raw.getD i none).isSome = true := by
  unfold nonNanIdx
  rw [List.mem_filter, List.mem_range]

theorem initialize_flags_length (raw : Chan) :
    (initialize_flags raw).length = raw.length := by
  unfold initialize_flags
  exact List.length_map raw _

theorem initialize_flags_getD (raw : Chan) (i : ℕ) (h : i < raw.length) :
    (initialize_flags raw).getD i 0
      = if (raw.getD i none).isSome then 2 else 9 := by
  have h2 : raw.getD i none = raw[i] := by
    rw [List.getD_eq_getElem?_getD, List.getElem?_eq_getElem h]
    rfl
  unfold initialize_flags
  rw [List.getD_eq_getElem?_getD, List.getElem?_map, List.getElem?_eq_getElem h, h2]
  rfl

theorem maskFlagged_isSome (data qv : Chan) (i : ℕ)
    (h : ((maskFlagged data qv).getD i none).isSome = true) :
    (data.getD i none).isSome = true := by
  unfold maskFlagged at h
  rw [getD_map_range] at h
  by_cases hi : i < data.length
  · rw [if_pos hi] at h
    cases hq : qv.getD i none with
    | none => rw [hq] at h; exact h
    | some x =>
      rw [hq] at h
      simp only [] at h
      split at h
      · simp at h
      · exact h
  · rw [if_neg hi] at h
    simp at h

theorem foldl_mask_isSome (qvs : List (String × Chan)) (base : Chan) (i : ℕ)
    (h : ((qvs.foldl (fun acc p => maskFlagged acc p.2) base).getD i none).isSome = true) :
    (base.getD i none).isSome = true := by
  induction qvs generalizing base with
  | nil => exact h
  | cons q rest ih => exact maskFlagged_isSome _ _ _ (ih _ h)

theorem apply_qartod_isSome (ds : Dataset) (varname : String) (i : ℕ)
    (h : ((apply_qartod_qc ds varname).getD i none).isSome = true) :
    ((((dvLookup ds varname).getD []) : Chan).getD i none).isSome = true := by
  unfold apply_qartod_qc at h
  exact foldl_mask_isSome _ _ _ h

theorem listMinMax_some_le (l : List ℚ) (hl : l ≠ []) :
    ∃ m M, listMin? l = some m ∧ listMax? l = some M ∧ m ≤ M := by
  induction l with
  | nil => exact absurd rfl hl
  | cons x xs ih =>
    cases xs with
    | nil => exact ⟨x, x, rfl, rfl, le_refl x⟩
    | cons y ys =>
      obtain ⟨m, M, hm, hM, hle⟩ := ih (by simp)
      refine ⟨min x m, max x M, ?_, ?_, ?_⟩
      · rw [show listMin? (x :: y :: ys)
              = some (match listMin? (y :: ys) with
                      | none => x
                      | some m => min x m) from rfl, hm]
      · rw [show listMax? (x :: y :: ys)
              = some (match listMax? (y :: ys) with
                      | none => x
                      | some m => max x m) from rfl, hM]
      · exact le_trans (min_le_left x m) (le_max_left x M)

theorem dataRangeOf_nonneg (pts : List (ℚ × ℚ)) (h : pts ≠ []) :
    0 ≤ dataRangeOf pts := by
  have hmap : pts.map Prod.fst ≠ [] := by
    intro hc
    exact h (List.map_eq_nil_iff.mp hc)
  obtain ⟨m, M, hm, hM, hle⟩ := listMinMax_some_le _ hmap
  unfold dataRangeOf
  rw [hm, hM]
  simp only [Option.getD_some]
  linarith

theorem assoc_update_find {β : Type} (l : List (String × β)) (n : String) (c : β) :
    ((l.map (fun p => if p.1 = n then (n, c) else p)).find? (fun p => p.1 = n))
      = if (l.find? (fun p => p.1 = n)).isSome then some (n, c) else none := by
  induction l with
  | nil => rfl
  | cons p rest ih =>
    by_cases hp : p.1 = n
    · simp [hp, List.find?_cons_of_pos]
    · simp only [List.map_cons, if_neg hp]
      rw [List.find?_cons_of_neg _ (by simpa using hp),
          List.find?_cons_of_neg _ (by simpa using hp), ih]

theorem assoc_append_find {β : Type} (l : List (String × β)) (n : String) (c : β)
    (hf : l.find? (fun p => p.1 = n) = none) :
    (l ++ [(n, c)]).find? (fun p => p.1 = n) = some (n, c) := by
  induction l with
  | nil => simp [List.find?_cons_of_pos]
  | cons p rest ih =>
    have hp : ¬ p.1 = n := by
      intro hc
      rw [List.find?_cons_of_pos _ (by simpa using hc)] at hf
      exact Option.noConfusion hf
    rw [List.find?_cons_of_neg _ (by simpa using hp)] at hf
    rw [List.cons_append, List.find?_cons_of_neg _ (by simpa using hp)]
    exact ih hf

theorem dvLookup_dvSet_self (ds : Dataset) (n : String) (c : Chan) :
    dvLookup (dvSet ds n c) n = some c := by
  unfold dvLookup dvSet
  by_cases hf : (ds.dataVars.find? (fun p => p.1 = n)).isSome
  · rw [if_pos hf]
    simp only []
    rw [assoc_update_find, if_pos hf]
    rfl
  · rw [if_neg hf]
    simp only []
    rw [assoc_append_find _ _ _ (Option.not_isSome_iff_eq_none.mp hf)]
    rfl

theorem ancLookup_ancSet_self (ds : Dataset) (n v : String) :
    ancLookup (ancSet ds n v) n = some v := by
  unfold ancLookup ancSet
  by_cases hf : (ds.ancVars.find? (fun p => p.1 = n)).isSome
  · rw [if_pos hf]
    simp only []
    rw [assoc_update_find, if_pos hf]
    rfl
  · rw [if_neg hf]
    simp only []
    rw [assoc_append_find _ _ _ (Option.not_isSome_iff_eq_none.mp hf)]
    rfl

theorem dvSet_ancVars (ds : Dataset) (n : String) (c : Chan) :
    (dvSet ds n c).ancVars = ds.ancVars := by
  unfold dvSet
  split <;> rfl

theorem add_da_ancVars (ds : Dataset) (fl : List ℚ) (n : String) :
    (add_da ds fl n).ancVars = ds.ancVars := by
  unfold add_da
  exact dvSet_ancVars ds n _

theorem setIdx_init_missing (raw : Chan) (flag : ℚ) (i : ℕ)
    (h : i < raw.length) (hnan : raw.getD i none = none) :
    (setIdx (initialize_flags raw) (nonNanIdx raw) flag).getD i 0 = 9 := by
  have hlen : i < (initialize_flags raw).length := by
    rw [initialize_flags_length]
    exact h
  rw [setIdx_getD _ _ _ i hlen]
  have hmem : i ∉ nonNanIdx raw := by
    rw [mem_nonNanIdx]
    rintro ⟨-, hs⟩
    rw [hnan] at hs
    simp at hs
  rw [if_neg hmem, initialize_flags_getD raw i h, hnan]
  simp

/-- C8: for any profile and tested variable, the flag array built by
`initialize_flags` has the same length as the variable channel, and each
sample is MISSING(9) exactly when the raw tested-variable value is NaN and
NOT_EVALUATED(2) otherwise, prior to any classification overwrite. -/
theorem initialize_flags_spec (raw : Chan) :
    (initialize_flags raw).length = raw.length
    ∧ ∀ i, i < raw.length →
        (initialize_flags raw).getD i 0
          = if raw.getD i none = none then 9 else 2 := by
  refine ⟨initialize_flags_length raw, ?_⟩
  intro i hi
  rw [initialize_flags_getD raw i hi]
  cases h : raw.getD i none <;> simp [h]

theorem initialize_flags_spec_witness :
    (1 < ([some (1 : ℚ), none] : Chan).length)
    ∧ (initialize_flags [some (1 : ℚ), none]).getD 1 0
        = if ([some (1 : ℚ), none] : Chan).getD 1 none = none then 9 else 2 :=
  ⟨by decide, (initialize_flags_spec [some (1 : ℚ), none]).2 1 (by decide)⟩

/-- C10: any sample whose raw tested-variable value is NaN keeps flag
MISSING(9) through the joint pair evaluation on either profile: the
classification write of `pairEvaluate` touches only the non-NaN indices, so
a MISSING flag is never overwritten by any pair outcome. -/
theorem missing_flags_never_overwritten (g : GeomOracle) (th : Thresholds)
    (ds ds2 : Dataset) (testvar : String) (i : ℕ) :
    ((((dvLookup ds testvar).getD [] : Chan).getD i none = none
        ∧ i < ((dvLookup ds testvar).getD [] : Chan).length) →
      (pairEvaluate g th ds ds2 testvar).flags.getD i 0 = 9)
    ∧ ((((dvLookup ds2 testvar).getD [] : Chan).getD i none = none
        ∧ i < ((dvLookup ds2 testvar).getD [] : Chan).length) →
      (pairEvaluate g th ds ds2 testvar).flags2.getD i 0 = 9) := by
  constructor <;> rintro ⟨hnan, hlt⟩ <;>
    simp only [pairEvaluate] <;> split_ifs <;> dsimp only [] <;>
    first
      | exact setIdx_init_missing _ _ _ hlt hnan
      | (rw [initialize_flags_getD _ i hlt, hnan]; simp)

theorem missing_flags_never_overwritten_witness :
    (((dvLookup dsMiss "conductivity").getD [] : Chan).getD 0 none = none
      ∧ 0 < ((dvLookup dsMiss "conductivity").getD [] : Chan).length)
    ∧ (pairEvaluate g0 thBig dsMiss dsUp "conductivity").flags.getD 0 0 = 9
    ∧ (pairEvaluate g0 thBig dsDown dsMiss "conductivity").flags2.getD 0 0 = 9 :=
  ⟨⟨by decide, by decide⟩,
   (missing_flags_never_overwritten g0 thBig dsMiss dsUp "conductivity" 0).1
     ⟨by decide, by decide⟩,
   (missing_flags_never_overwritten g0 thBig dsDown dsMiss "conductivity" 0).2
     ⟨by decide, by decide⟩⟩

/-- C4: the classification of a matched pair is GOOD when the data range is
at most `test_threshold`, independent of the geometric area; otherwise FAIL
when the normalized area exceeds the range scaled by `fail_threshold`, else
SUSPECT when it exceeds the range scaled by `suspect_threshold`, else
GOOD. -/
theorem classification_threshold_spec (th : Thresholds) (dataRange area : ℚ) :
    classify th dataRange area
      = if dataRange ≤ th.test_threshold then 1
        else if area > dataRange * th.fail_threshold then 4
        else if area > dataRange * th.suspect_threshold then 3
        else 1 := by
  unfold classify
  split_ifs <;> first | rfl | linarith

/-- C6: for a fixed surviving point set (hence fixed data range) and fixed
normalized area, raising `fail_threshold` or `suspect_threshold` never
increases the severity (GOOD < SUSPECT < FAIL) of the classification. -/
theorem classification_monotone_in_thresholds (pts : List (ℚ × ℚ))
    (th th2 : Thresholds) (area : ℚ)
    (hne : pts ≠ [])
    (ht : th2.test_threshold = th.test_threshold)
    (hs : th.suspect_threshold ≤ th2.suspect_threshold)
    (hf : th.fail_threshold ≤ th2.fail_threshold) :
    sev (classify th2 (dataRangeOf pts) area)
      ≤ sev (classify th (dataRangeOf pts) area) := by
  have hdr : 0 ≤ dataRangeOf pts := dataRangeOf_nonneg pts hne
  have h1 : dataRangeOf pts * th.fail_threshold
      ≤ dataRangeOf pts * th2.fail_threshold :=
    mul_le_mul_of_nonneg_left hf hdr
  have h2 : dataRangeOf pts * th.suspect_threshold
      ≤ dataRangeOf pts * th2.suspect_threshold :=
    mul_le_mul_of_nonneg_left hs hdr
  unfold classify
  rw [ht]
  split_ifs <;> norm_num [sev] <;> linarith

theorem classification_monotone_in_thresholds_witness :
    sev (classify thBig (dataRangeOf [((0 : ℚ), (0 : ℚ))]) 0)
      ≤ sev (classify thBig (dataRangeOf [((0 : ℚ), (0 : ℚ))]) 0) :=
  classification_monotone_in_thresholds [((0 : ℚ), (0 : ℚ))] thBig thBig 0
    (by decide) rfl (le_refl _) (le_refl _)

/-- C2 counterexample: the flag channel name the engine commits for the
conductivity variable does not pass the summary consumer's discovery filter,
because it contains no `"_qartod_"` substring. -/
theorem hysteresis_channel_escapes_summary_filter :
    qartodVarFilter (qcVarnameOf "conductivity") = false := by decide

/-- C2 (amended): the flag channel is always named exactly
`"<v>_hysteresis_test"` and every code it can carry lies in {1,2,3,4,9},
but for both tested variables that name fails the summary consumer's
discovery filter, so the channel is never folded into the per-sensor
summary flag. -/
theorem hysteresis_channel_naming_and_codes :
    hysteresisFlagValues = [1, 2, 3, 4, 9]
    ∧ ∀ tv ∈ testVarnames,
        qcVarnameOf tv = tv ++ "_hysteresis_test"
        ∧ qartodVarFilter (qcVarnameOf tv) = false
        ∧ (∀ raw : Chan, ∀ x ∈ initialize_flags raw, x = 2 ∨ x = 9)
        ∧ (∀ (th : Thresholds) (dr a : ℚ),
            classify th dr a = 1 ∨ classify th dr a = 3 ∨ classify th dr a = 4) := by
  refine ⟨rfl, ?_⟩
  intro tv htv
  refine ⟨rfl, ?_, ?_, ?_⟩
  · have hcases : tv = "conductivity" ∨ tv = "temperature" := by
      simpa [testVarnames] using htv
    rcases hcases with rfl | rfl <;> decide
  · intro raw x hx
    unfold initialize_flags at hx
    rcases List.mem_map.1 hx with ⟨v, hv, rfl⟩
    by_cases h : v.isSome <;> simp [h]
  · intro th dr a
    unfold classify
    split_ifs <;> simp

theorem hysteresis_channel_naming_and_codes_witness :
    "conductivity" ∈ testVarnames
    ∧ qartodVarFilter (qcVarnameOf "conductivity") = false :=
  ⟨by decide,
   (hysteresis_channel_naming_and_codes.2 "conductivity" (by decide)).2.1⟩

/-- C3: whenever the joint pair evaluation classifies a pair, the single
classification value is written uniformly at every sample index of either
profile that survives the QAFilter masking of the tested variable, with the
identical value on both profiles. -/
theorem pair_classification_uniform_on_survivors (g : GeomOracle)
    (th : Thresholds) (ds ds2 : Dataset) (testvar : String) (flag : ℚ)
    (h : (pairEvaluate g th ds ds2 testvar).classified = some flag) :
    (∀ i, ((apply_qartod_qc ds testvar).getD i none).isSome = true →
        (pairEvaluate g th ds ds2 testvar).flags.getD i 0 = flag)
    ∧ (∀ i, ((apply_qartod_qc ds2 testvar).getD i none).isSome = true →
        (pairEvaluate g th ds ds2 testvar).flags2.getD i 0 = flag) := by
  simp only [pairEvaluate] at h ⊢
  by_cases hc : countDefined (apply_qartod_qc ds testvar) > 0
      ∧ countDefined (apply_qartod_qc ds2 testvar) > 0
  · rw [if_pos hc] at h ⊢
    dsimp only [] at h ⊢
    have hflag := Option.some.inj h
    constructor <;> intro i hi
    · have hbase := apply_qartod_isSome ds testvar i hi
      have hlt := chan_getD_isSome_lt _ _ hbase
      have hmem : i ∈ nonNanIdx ((dvLookup ds testvar).getD []) :=
        (mem_nonNanIdx _ _).2 ⟨hlt, hbase⟩
      rw [setIdx_getD _ _ _ i (by rw [initialize_flags_length]; exact hlt),
          if_pos hmem]
      exact hflag
    · have hbase := apply_qartod_isSome ds2 testvar i hi
      have hlt := chan_getD_isSome_lt _ _ hbase
      have hmem : i ∈ nonNanIdx ((dvLookup ds2 testvar).getD []) :=
        (mem_nonNanIdx _ _).2 ⟨hlt, hbase⟩
      rw [setIdx_getD _ _ _ i (by rw [initialize_flags_length]; exact hlt),
          if_pos hmem]
      exact hflag
  · rw [if_neg hc] at h
    dsimp only [] at h
    exact absurd h (by simp)

theorem pair_classification_uniform_on_survivors_witness :
    (pairEvaluate g0 thBig dsDown dsUp "conductivity").classified = some 1
    ∧ ((apply_qartod_qc dsDown "conductivity").getD 0 none).isSome = true
    ∧ (pairEvaluate g0 thBig dsDown dsUp "conductivity").flags.getD 0 0 = 1 :=
  ⟨by decide, by decide,
   (pair_classification_uniform_on_survivors g0 thBig dsDown dsUp "conductivity" 1
      (by decide)).1 0 (by decide)⟩

/-- C7 counterexample: a degenerate-pressure profile whose tested variable is
entirely NaN has no flag channel committed at all (the missing-data guard
skips the variable with an error status before the pressure check), so the
claim does not hold regardless of the tested-variable content. -/
theorem degenerate_all_nan_variable_not_committed :
    pressureDegenerate (apply_qartod_qc dsDegNaN "pressure") = true
    ∧ resultMainFlags (processTestvar g0 thBig none "conductivity" stDegNaN)
        "conductivity_hysteresis_test" = none
    ∧ processTestvar g0 thBig none "conductivity" stDegNaN
        = .ok { stDegNaN with status := 1 } := by
  refine ⟨by decide, by decide, ?_⟩
  have h : (nonNanIdx ([none, none] : Chan)).isEmpty = true := by decide
  simp only [processTestvar]
  rw [show dvLookup stDegNaN.ds "conductivity" = some [none, none] from rfl]
  simp [h]

/-- C7 (amended): when the masked pressure of a profile is entirely NaN or
spans under 5 dbar, then for every tested variable holding at least one
defined sample the committed flag channel is exactly the initialized array
(so every defined sample stays NOT_EVALUATED(2)) and no pair evaluation
runs, both when the degenerate profile is the current one (advance by one,
not-evaluated counter +1) and when it is the lookahead of a down profile
(both profiles committed initialized flags, counter +2, extra skip); a
tested variable with no defined sample is instead skipped with an error
status and no channel committed. -/
theorem degenerate_pressure_not_evaluated :
    (∀ (g : GeomOracle) (th : Thresholds) (nextFile : Option (Option Dataset))
        (testvar : String) (st : TVState) (raw : Chan),
      dvLookup st.ds testvar = some raw →
      (nonNanIdx raw).isEmpty = false →
      pressureDegenerate (apply_qartod_qc st.ds "pressure") = true →
      processTestvar g th nextFile testvar st
        = .ok { st with
            ds := add_da st.ds (initialize_flags raw) (qcVarnameOf testvar)
            summary := bumpSummary st.summary testvar 1 0 0 })
    ∧ (∀ (g : GeomOracle) (th : Thresholds) (testvar : String) (st : TVState)
        (raw : Chan) (d2 : Dataset) (raw2 : Chan),
      dvLookup st.ds testvar = some raw →
      (nonNanIdx raw).isEmpty = false →
      pressureDegenerate (apply_qartod_qc st.ds "pressure") = false →
      profileIsUpFirst (apply_qartod_qc st.ds "pressure") = false →
      st.ds2 = none →
      dvLookup d2 testvar = some raw2 →
      pressureDegenerate (apply_qartod_qc d2 "pressure") = true →
      processTestvar g th (some (some d2)) testvar st
        = .ok { st with
            ds := add_da st.ds (initialize_flags raw) (qcVarnameOf testvar)
            ds2 := some (add_da d2 (initialize_flags raw2) (qcVarnameOf testvar))
            f2skip := st.f2skip + 1
            summary := bumpSummary st.summary testvar 2 0 0 }) := by
  constructor
  · intro g th nextFile testvar st raw h1 h2 h3
    simp only [processTestvar, h1, h2, h3, Bool.false_eq_true, if_false, if_true]
  · intro g th testvar st raw d2 raw2 h1 h2 h3 h4 h5 h6 h7
    simp only [processTestvar, h1, h2, h3, h4, h5, h6, h7, Bool.false_eq_true,
      if_false, if_true]

theorem degenerate_pressure_not_evaluated_witness :
    resultMainFlags (processTestvar g0 thBig none "conductivity" stDeg)
        "conductivity_hysteresis_test" = some [some 2, some 2]
    ∧ resultLookFlags (processTestvar g0 thBig (some (some dsDeg)) "conductivity" stDown)
        "conductivity_hysteresis_test" = some [some 2, some 2] := by
  constructor
  · rw [degenerate_pressure_not_evaluated.1 g0 thBig none "conductivity" stDeg
        [some (5 : ℚ), some 6] (by decide) (by decide) (by decide)]
    decide
  · rw [degenerate_pressure_not_evaluated.2 g0 thBig "conductivity" stDown
        [some (1 : ℚ), some 2] dsDeg [some (5 : ℚ), some 6]
        (by decide) (by decide) (by decide) (by decide) rfl (by decide) (by decide)]
    decide

/-- C9 counterexample: on the degenerate-pressure path the flag channel is
committed (it holds the initialized NOT_EVALUATED flags) yet the
`ancillary_variables` attribute of the tested variable is left untouched, so
committing a hysteresis channel does not always append the linkage. -/
theorem degenerate_commit_skips_ancillary_append :
    resultMainFlags (processTestvar g0 thBig none "conductivity" stDeg)
        "conductivity_hysteresis_test" = some [some 2, some 2]
    ∧ resultAncAttr (processTestvar g0 thBig none "conductivity" stDeg) "conductivity"
        = some none := by
  constructor <;> decide

/-- C9 (amended): `append_ancillary_variables` itself always appends by
blank-separated concatenation, creating the attribute when absent; the
per-variable step performs those appends on the tested variable, `salinity`
and `density` on the paths that reach the shared epilogue (shown here for the
up-profile path), but on the degenerate-pressure path the channel is
committed with no ancillary append at all. -/
theorem ancillary_append_paths_spec :
    (∀ (ds : Dataset) (v n : String),
      ancLookup (append_ancillary_variables ds v n) v
        = some ((ancLookup ds v).elim n (fun s => s ++ " " ++ n)))
    ∧ (∀ (g : GeomOracle) (th : Thresholds) (nextFile : Option (Option Dataset))
        (testvar : String) (st : TVState) (raw : Chan),
      dvLookup st.ds testvar = some raw →
      (nonNanIdx raw).isEmpty = false →
      pressureDegenerate (apply_qartod_qc st.ds "pressure") = false →
      profileIsUpFirst (apply_qartod_qc st.ds "pressure") = true →
      st.ds2 = none →
      processTestvar g th nextFile testvar st
        = .ok { st with
            ds := append_ancillary_variables
              (append_ancillary_variables
                (append_ancillary_variables
                  (add_da st.ds (initialize_flags raw) (qcVarnameOf testvar))
                  testvar (qcVarnameOf testvar))
                "salinity" (qcVarnameOf testvar))
              "density" (qcVarnameOf testvar)
            summary := bumpSummary st.summary testvar 1 0 0 })
    ∧ (∀ (g : GeomOracle) (th : Thresholds) (nextFile : Option (Option Dataset))
        (testvar : String) (st : TVState) (raw : Chan),
      dvLookup st.ds testvar = some raw →
      (nonNanIdx raw).isEmpty = false →
      pressureDegenerate (apply_qartod_qc st.ds "pressure") = true →
      (processTestvar g th nextFile testvar st
        = .ok { st with
            ds := add_da st.ds (initialize_flags raw) (qcVarnameOf testvar)
            summary := bumpSummary st.summary testvar 1 0 0 })
      ∧ (add_da st.ds (initialize_flags raw) (qcVarnameOf testvar)).ancVars
          = st.ds.ancVars
      ∧ dvLookup (add_da st.ds (initialize_flags raw) (qcVarnameOf testvar))
          (qcVarnameOf testvar) = some ((initialize_flags raw).map some)) := by
  refine ⟨?_, ?_, ?_⟩
  · intro ds v n
    unfold append_ancillary_variables
    cases h : ancLookup ds v with
    | none => simp [ancLookup_ancSet_self]
    | some s => simp [ancLookup_ancSet_self]
  · intro g th nextFile testvar st raw h1 h2 h3 h4 h5
    simp only [processTestvar, h1, h2, h3, h4, h5, Bool.false_eq_true,
      if_false, if_true, epilogueAnc]
  · intro g th nextFile testvar st raw h1 h2 h3
    refine ⟨?_, add_da_ancVars _ _ _, ?_⟩
    · simp only [processTestvar, h1, h2, h3, Bool.false_eq_true, if_false, if_true]
    · unfold add_da
      exact dvLookup_dvSet_self _ _ _

theorem ancillary_append_paths_spec_witness :
    ancLookup (append_ancillary_variables dsDeg "conductivity" "x") "conductivity"
      = some "x"
    ∧ resultAncAttr (processTestvar g0 thBig none "conductivity" stUpCur) "conductivity"
      = some (some "conductivity_hysteresis_test")
    ∧ (add_da stDeg.ds (initialize_flags [some (5 : ℚ), some 6])
        (qcVarnameOf "conductivity")).ancVars = stDeg.ds.ancVars := by
  refine ⟨?_, ?_, ?_⟩
  · have h := ancillary_append_paths_spec.1 dsDeg "conductivity" "x"
    simpa using h
  · rw [ancillary_append_paths_spec.2.1 g0 thBig none "conductivity" stUpCur
        [some (1 : ℚ), some 2] (by decide) (by decide) (by decide) (by decide) rfl]
    decide
  · exact (ancillary_append_paths_spec.2.2 g0 thBig none "conductivity" stDeg
      [some (5 : ℚ), some 6] (by decide) (by decide) (by decide)).2.1

/-- C5 counterexample: a current profile whose masked pressure has equal
first and last valid samples is not treated as an up profile: the scanner
takes the down branch, pairs it with the following up profile and classifies
the pair (here GOOD, writing flags 1), whereas the claim demands direction up
and therefore NOT_EVALUATED flags. -/
theorem equal_endpoint_profile_paired_not_up :
    firstValid (apply_qartod_qc dsEq "pressure")
      = lastValid (apply_qartod_qc dsEq "pressure")
    ∧ resultMainFlags (processTestvar g0 thBig (some (some dsUp)) "conductivity" stEq)
        "conductivity_hysteresis_test" = some [some 1, some 1, some 1] := by
  constructor <;> decide

/-- C5 (amended): the current profile is classified up exactly when its first
valid masked pressure is strictly greater than the last (equal endpoints give
down, so the profile starts a pair), while the lookahead profile is
classified down exactly when its first valid masked pressure is strictly
less than the last (equal endpoints give up). -/
theorem direction_tests_spec (p : Chan) (a b : ℚ)
    (h1 : firstValid p = some a) (h2 : lastValid p = some b) :
    profileIsUpFirst p = decide (a > b) ∧ secondIsDown p = decide (a < b) := by
  unfold profileIsUpFirst secondIsDown
  rw [h1, h2]
  exact ⟨rfl, rfl⟩

theorem direction_tests_spec_witness :
    profileIsUpFirst [some 1, some 2] = false
    ∧ secondIsDown [some 1, some 2] = true := by
  constructor
  · rw [(direction_tests_spec [some 1, some 2] 1 2 rfl rfl).1]
    decide
  · rw [(direction_tests_spec [some 1, some 2] 1 2 rfl rfl).2]
    decide

/-- C1: a lookahead file whose open fails does not merely skip — after the
caught read error the engine still evaluates `ds2[testvar]` with `ds2`
unbound, raising an uncaught `NameError` that aborts the entire scan, as
this concrete two-file run shows. -/
theorem lookahead_read_failure_aborts_scan :
    runOutcome (runScan g0 (fun _ => thBig) "2024-12-20T00:00:00Z" [some dsDown, none])
      = some PyErr.nameError := by
  decide
